import Mathlib

/-!
# Verification of the e-commerce analytics pipeline

Shallow embedding of the load/normalize/filter/aggregate pipeline implemented
(with near-duplicate variants) in `app/streamlit_app.py`,
`scripts/streamlit_dashboard.py` and `back-end/app.py`.

Modelling conventions:
* A pandas timestamp is represented by a calendar `Date` (year, month, day);
  timestamps compare lexicographically on these fields.  The string→timestamp
  parser itself is external (pandas); a raw cell is therefore represented by
  its parse outcome `Option Date`, where `none` stands for an unparseable
  value (`NaT` under `errors="coerce"`, an exception under the default
  `errors="raise"`).
* Monetary amounts and 0/1 flags are rationals (`ℚ`): the theorems below are
  the exact-arithmetic content of the float computations.
* `Series.mean()` of an empty series is `NaN` in pandas; an aggregate that can
  be `NaN` is modelled as `Option ℚ` with `none` for the NaN sentinel.
* pandas `groupby(key)[col].sum()` (with the default `sort=True`) is modelled
  as: the distinct keys in ascending order, each paired with the sum of `col`
  over its fiber.
-/

/-- A calendar date, the essence of a pandas timestamp for this pipeline. -/
structure Date where
  year : Nat
  month : Nat
  day : Nat
deriving DecidableEq, Repr

/-- Timestamp order: lexicographic on (year, month, day). -/
def Date.le (a b : Date) : Prop :=
  a.year < b.year ∨
    (a.year = b.year ∧ (a.month < b.month ∨ (a.month = b.month ∧ a.day ≤ b.day)))

instance Date.decLe : DecidableRel Date.le := fun a b => by
  unfold Date.le; infer_instance

theorem Date.le_refl (a : Date) : Date.le a a := by
  unfold Date.le; omega

theorem Date.le_trans {a b c : Date} (h1 : Date.le a b) (h2 : Date.le b c) :
    Date.le a c := by
  unfold Date.le at *; omega

theorem Date.le_total (a b : Date) : Date.le a b ∨ Date.le b a := by
  unfold Date.le; omega

/-- The month bucket of a date.  pandas represents a monthly `Period` by the
linear ordinal `(year − 1970) * 12 + (month − 1)`; we use the same
linearization without the 1970 shift. -/
def monthKey (d : Date) : Nat := d.year * 12 + (d.month - 1)

/-- One cleaned order record, with the columns the dashboards read
(`purchase_date`, `product_category`, `payment_method`, `quantity`,
`total_purchase_amount`, `returns`, `churn`). -/
structure Row where
  purchase_date : Date
  product_category : String
  payment_method : String
  quantity : Nat
  total_purchase_amount : ℚ
  returns : ℚ
  churn : Nat
deriving DecidableEq, Repr

/-- A raw order record before date cleaning: the `purchase_date` cell is the
parse outcome of `pd.to_datetime(.., errors="coerce")` (`none` = `NaT`). -/
structure RawRow where
  purchase_date : Option Date
  product_category : String
  payment_method : String
  quantity : Nat
  total_purchase_amount : ℚ
  returns : ℚ
  churn : Nat
deriving DecidableEq, Repr

/-- Attach a successfully parsed date to a raw record. -/
def setRow (r : RawRow) (d : Date) : Row :=
  { purchase_date := d
    product_category := r.product_category
    payment_method := r.payment_method
    quantity := r.quantity
    total_purchase_amount := r.total_purchase_amount
    returns := r.returns
    churn := r.churn }

/-- Forget the cleaning of a record (used to state order preservation). -/
def rawOf (r : Row) : RawRow :=
  { purchase_date := some r.purchase_date
    product_category := r.product_category
    payment_method := r.payment_method
    quantity := r.quantity
    total_purchase_amount := r.total_purchase_amount
    returns := r.returns
    churn := r.churn }

/-- `app/streamlit_app.py` lines 55–57: `to_datetime(errors="coerce")`
followed by `dropna(subset=["purchase_date"])` — rows whose timestamp did not
parse are silently dropped, the rest are kept in order.  This variant does
NOT sort. -/
def appNormalize (raw : List RawRow) : List Row :=
  raw.filterMap (fun r => r.purchase_date.map (setRow r))

/-- Row comparison used by `sort_values(by="purchase_date")`. -/
def rowDateLe (a b : Row) : Prop := Date.le a.purchase_date b.purchase_date

instance rowDateLe.dec : DecidableRel rowDateLe := fun a b => by
  unfold rowDateLe; infer_instance

instance rowDateLe.total : IsTotal Row rowDateLe :=
  ⟨fun a b => Date.le_total a.purchase_date b.purchase_date⟩

instance rowDateLe.trans : IsTrans Row rowDateLe :=
  ⟨fun _ _ _ h1 h2 => Date.le_trans h1 h2⟩

/-- `scripts/streamlit_dashboard.py` lines 60–63: the same coerce/drop
cleaning followed by `df.sort_values(by="purchase_date")`.  pandas'
`sort_values` default kind is quicksort, which carries no tie-stability
guarantee; we model it by a comparison sort and assert only order- and
multiset-properties of its output, never tie order. -/
def scriptsNormalize (raw : List RawRow) : List Row :=
  (appNormalize raw).insertionSort rowDateLe

/-- Sidebar filter of both streamlit dashboards
(`app/streamlit_app.py` 74–78, `scripts/streamlit_dashboard.py` 81–85):
keep the rows with `start ≤ purchase_date ≤ end` (inclusive) whose
`product_category` is in the selected list (`isin`). -/
def filtered_df (df : List Row) (startD endD : Date)
    (selected_categories : List String) : List Row :=
  df.filter (fun r =>
    decide (Date.le startD r.purchase_date ∧ Date.le r.purchase_date endD ∧
      r.product_category ∈ selected_categories))

/-- KPI `Orders`: `len(filtered_df)`. -/
def orderCount (v : List Row) : Nat := v.length

/-- KPI `Revenue`: `filtered_df['total_purchase_amount'].sum()` (pandas sums
an empty series to 0). -/
def totalRevenue (v : List Row) : ℚ := (v.map Row.total_purchase_amount).sum

/-- `Series.mean()`: NaN (modelled `none`) on an empty series, else the sum
divided by the length. -/
def seriesMean (l : List ℚ) : Option ℚ :=
  if l.length = 0 then none else some (l.sum / l.length)

/-- KPI `Avg Order`: `filtered_df['total_purchase_amount'].mean()`. -/
def avgOrderValue (v : List Row) : Option ℚ :=
  seriesMean (v.map Row.total_purchase_amount)

/-- KPI `Return Rate`: `filtered_df['returns'].mean()` (before the ×100
display scaling). -/
def returnRate (v : List Row) : Option ℚ :=
  seriesMean (v.map Row.returns)

/-- Claim C1: filtering returns exactly the rows whose purchase timestamp
lies in the inclusive range [start, end] and whose product category is in
the accepted set; hence the view is never larger than the dataset and every
row of the view satisfies both predicates. -/
theorem filtered_df_spec (df : List Row) (startD endD : Date)
    (selected_categories : List String) :
    (filtered_df df startD endD selected_categories).length ≤ df.length ∧
      ∀ r : Row, (r ∈ filtered_df df startD endD selected_categories ↔
        r ∈ df ∧ Date.le startD r.purchase_date ∧
          Date.le r.purchase_date endD ∧
          r.product_category ∈ selected_categories) := by
  constructor
  · exact List.length_filter_le _ df
  · intro r
    simp [filtered_df, List.mem_filter, and_assoc]

/-- One backend order record, with the columns `back-end/app.py` reads
(`order_id`, `order_date`, `product_category`, `total_price`). -/
structure BRow where
  order_id : Nat
  order_date : Date
  product_category : String
  total_price : ℚ
deriving DecidableEq, Repr

/-- A raw backend record: `order_date` is the parse outcome of the timestamp
cell (`none` = unparseable). -/
structure BRawRow where
  order_id : Nat
  order_date : Option Date
  product_category : String
  total_price : ℚ
deriving DecidableEq, Repr

/-- `back-end/app.py` line 8: `pd.to_datetime(df['order_date'])` with the
default `errors="raise"` — the whole load fails as soon as any timestamp is
unparseable; otherwise every row is kept with its parsed date. -/
def backendParseDates (raw : List BRawRow) : Except String (List BRow) :=
  if raw.all (fun r => r.order_date.isSome) then
    Except.ok (raw.filterMap (fun r =>
      r.order_date.map (fun d => ⟨r.order_id, d, r.product_category, r.total_price⟩)))
  else
    Except.error "unparseable order_date"

/-- Backend KPI `total_revenue`: `df['total_price'].sum()`. -/
def total_revenue (df : List BRow) : ℚ := (df.map BRow.total_price).sum

/-- Backend KPI `total_orders`: `df['order_id'].nunique()` — the number of
DISTINCT order ids, not the row count. -/
def total_orders (df : List BRow) : Nat :=
  (df.map BRow.order_id).toFinset.card

/-- Round half to even at integer precision, the idealized Python `round`. -/
def roundHalfEven (q : ℚ) : ℤ :=
  if q - ⌊q⌋ < 1/2 then ⌊q⌋
  else if q - ⌊q⌋ > 1/2 then ⌊q⌋ + 1
  else if ⌊q⌋ % 2 = 0 then ⌊q⌋ else ⌊q⌋ + 1

/-- `round(x, 2)` of `back-end/app.py` line 29, idealized to exact
arithmetic. -/
def round2 (q : ℚ) : ℚ := (roundHalfEven (q * 100) : ℚ) / 100

/-- Backend `avg_order_value = total_revenue / total_orders` before
rounding.  When `total_orders = 0` the float division yields NaN (with a
warning, not an exception); NaN is modelled as `none`. -/
def avg_order_value (df : List BRow) : Option ℚ :=
  if total_orders df = 0 then none
  else some (total_revenue df / (total_orders df : ℚ))

/-- The JSON body of `/api/kpis`. -/
structure KpiResponse where
  total_revenue : ℚ
  total_orders : Nat
  avg_order_value : Option ℚ
deriving DecidableEq, Repr

/-- `back-end/app.py` lines 20–30, the `/api/kpis` handler body: aggregates
of the WHOLE loaded dataset (`avg_order_value` reported rounded to two
decimals). -/
def kpis (df : List BRow) : KpiResponse :=
  { total_revenue := total_revenue df
    total_orders := total_orders df
    avg_order_value := (avg_order_value df).map round2 }

/-- `back-end/app.py` lines 35–38, the `/api/category_sales` handler body:
`df.groupby('product_category')['total_price'].sum()` over the whole
dataset — distinct categories in ascending order, each with the sum of
`total_price` over its rows. -/
def category_sales (df : List BRow) : List (String × ℚ) :=
  ((df.map BRow.product_category).toFinset.sort (· ≤ ·)).map
    (fun c => (c, ((df.filter (fun r => decide (r.product_category = c))).map
      BRow.total_price).sum))

/-- Date-range filter of `/api/generate_report` (`back-end/app.py` 48–51):
inclusive on both ends, no category criterion. -/
def reportFiltered (df : List BRow) (startD endD : Date) : List BRow :=
  df.filter (fun r =>
    decide (Date.le startD r.order_date ∧ Date.le r.order_date endD))

/-- The figures printed into the PDF by `/api/generate_report`
(`back-end/app.py` 53–59). -/
structure ReportSummary where
  total_revenue : ℚ
  total_orders : Nat
deriving DecidableEq, Repr

/-- `back-end/app.py` lines 44–62: filter by the requested date range, then
sum `total_price` and count distinct `order_id` over the filtered rows. -/
def generate_report (df : List BRow) (startD endD : Date) : ReportSummary :=
  { total_revenue := total_revenue (reportFiltered df startD endD)
    total_orders := total_orders (reportFiltered df startD endD) }

/-- An HTTP request as the Flask handlers see it: its query parameters. -/
structure Request where
  args : List (String × String)
deriving DecidableEq, Repr

/-- `request.args.get(k)`. -/
def Request.getArg (req : Request) (k : String) : Option String :=
  (req.args.find? (fun p => decide (p.1 = k))).map Prod.snd

/-- The `/api/kpis` route: the handler receives the request but its body
(`back-end/app.py` 21–30) never reads it — only the global `df`. -/
def kpisEndpoint (df : List BRow) (_req : Request) : KpiResponse := kpis df

/-- The `/api/category_sales` route: likewise independent of the request. -/
def categorySalesEndpoint (df : List BRow) (_req : Request) :
    List (String × ℚ) := category_sales df

/-- Claim C2: on a view with zero rows, the average-order-value and
return-rate aggregates are the explicit no-data sentinel (pandas NaN,
modelled `none`), not zero, and no aggregate raises (all are total
functions); likewise the backend average when its distinct-order count is
zero (float 0/0 gives NaN, not a division fault). -/
theorem empty_view_no_data (v : List Row) (bdf : List BRow)
    (h : orderCount v = 0) (hb : total_orders bdf = 0) :
    avgOrderValue v = none ∧ returnRate v = none ∧
      avgOrderValue v ≠ some 0 ∧ returnRate v ≠ some 0 ∧
      (kpis bdf).avg_order_value = none := by
  have hv : v = [] := List.length_eq_zero.mp h
  subst hv
  refine ⟨?_, ?_, ?_, ?_, ?_⟩ <;>
    simp [avgOrderValue, returnRate, seriesMean, kpis, avg_order_value, hb]

/-- Witness for C2 at the empty view and empty backend dataset. -/
theorem empty_view_no_data_witness :
    avgOrderValue [] = none ∧ returnRate [] = none ∧
      avgOrderValue [] ≠ some 0 ∧ returnRate [] ≠ some 0 ∧
      (kpis []).avg_order_value = none :=
  empty_view_no_data [] [] rfl rfl

/-- Claim C8: filtering with an empty accepted-category set yields an empty
view on which order count is 0, total revenue is 0, and average order value
and return rate are the no-data sentinel. -/
theorem empty_category_set_filter (df : List Row) (startD endD : Date) :
    filtered_df df startD endD [] = [] ∧
      orderCount (filtered_df df startD endD []) = 0 ∧
      totalRevenue (filtered_df df startD endD []) = 0 ∧
      avgOrderValue (filtered_df df startD endD []) = none ∧
      returnRate (filtered_df df startD endD []) = none := by
  have h : filtered_df df startD endD [] = [] := by
    simp [filtered_df, List.filter_eq_nil_iff]
  rw [h]
  exact ⟨rfl, rfl, rfl, rfl, rfl⟩

/-- Claim C9: a filter whose start date is strictly after its end date
produces an empty view (in the dashboards and in the backend report filter),
raising no error. -/
theorem inverted_range_filter (df : List Row) (bdf : List BRow)
    (startD endD : Date) (cats : List String) (h : ¬ Date.le startD endD) :
    filtered_df df startD endD cats = [] ∧
      reportFiltered bdf startD endD = [] := by
  constructor
  · rw [filtered_df, List.filter_eq_nil_iff]
    intro r _
    simp only [decide_eq_true_eq]
    rintro ⟨h1, h2, -⟩
    exact h (Date.le_trans h1 h2)
  · rw [reportFiltered, List.filter_eq_nil_iff]
    intro r _
    simp only [decide_eq_true_eq]
    rintro ⟨h1, h2⟩
    exact h (Date.le_trans h1 h2)

/-- Witness for C9: a concrete dataset filtered with start 2024-05-01 after
end 2024-01-31 comes out empty. -/
theorem inverted_range_filter_witness :
    filtered_df
        [{ purchase_date := ⟨2024, 2, 10⟩, product_category := "A",
           payment_method := "Card", quantity := 1,
           total_purchase_amount := 50, returns := 0, churn := 0 }]
        ⟨2024, 5, 1⟩ ⟨2024, 1, 31⟩ ["A"] = [] ∧
      reportFiltered [⟨1, ⟨2024, 2, 10⟩, "A", 50⟩] ⟨2024, 5, 1⟩ ⟨2024, 1, 31⟩
        = [] :=
  inverted_range_filter _ _ _ _ _ (by decide)

/-- Claim C10: the `/api/kpis` and `/api/category_sales` handlers never read
the request, so any two invocations on the same loaded dataset return
identical results whatever date range or category parameters the requests
carry. -/
theorem backend_endpoints_request_independent (df : List BRow)
    (r1 r2 : Request) :
    kpisEndpoint df r1 = kpisEndpoint df r2 ∧
      categorySalesEndpoint df r1 = categorySalesEndpoint df r2 ∧
      kpisEndpoint df r1 = kpis df ∧
      categorySalesEndpoint df r1 = category_sales df :=
  ⟨rfl, rfl, rfl, rfl⟩

/-- The coerce/drop cleaning keeps exactly the rows whose timestamp parsed,
in their original relative order: mapping the kept rows back to raw records
reproduces the parseable sublist of the input. -/
theorem appNormalize_map_rawOf (raw : List RawRow) :
    (appNormalize raw).map rawOf
      = raw.filter (fun r => r.purchase_date.isSome) := by
  induction raw with
  | nil => rfl
  | cons r t ih =>
    cases hd : r.purchase_date with
    | none =>
      simpa [appNormalize, List.filterMap_cons, List.filter_cons, hd] using ih
    | some d =>
      have hr : rawOf (setRow r d) = r := by
        cases r
        simp only [RawRow.mk.injEq] at hd ⊢
        simp [rawOf, setRow, hd]
      simp only [appNormalize, List.filterMap_cons, hd, Option.map_some',
        List.map_cons, hr, List.filter_cons, Option.isSome_some, if_pos]
      exact congrArg (r :: ·) ih

/-- A raw dataset whose two parseable rows arrive in reverse date order. -/
def exRawUnsorted : List RawRow :=
  [{ purchase_date := some ⟨2024, 2, 1⟩, product_category := "A",
     payment_method := "Card", quantity := 1, total_purchase_amount := 10,
     returns := 0, churn := 0 },
   { purchase_date := some ⟨2024, 1, 1⟩, product_category := "B",
     payment_method := "Cash", quantity := 2, total_purchase_amount := 20,
     returns := 1, churn := 0 }]

/-- Counterexample to claim C4 as stated: the `app/streamlit_app.py`
normalization (lines 55–57) performs no sort, so its output is not sorted
by purchase timestamp on this two-row dataset. -/
theorem appNormalize_not_sorted :
    ¬ List.Sorted rowDateLe (appNormalize exRawUnsorted) := by decide

/-- Claim C4 amended: only the `scripts/streamlit_dashboard.py` variant
sorts — its normalized output is ordered by purchase timestamp ascending
and is a permutation of the cleaned rows; the `app/streamlit_app.py`
variant does not sort, keeping the kept rows in their original relative
order.  (Tie stability is not asserted: pandas' default sort kind is
quicksort, which guarantees none.) -/
theorem normalize_sort_behavior (raw : List RawRow) :
    List.Sorted rowDateLe (scriptsNormalize raw) ∧
      (scriptsNormalize raw).Perm (appNormalize raw) ∧
      (appNormalize raw).map rawOf
        = raw.filter (fun r => r.purchase_date.isSome) :=
  ⟨List.sorted_insertionSort rowDateLe (appNormalize raw),
    List.perm_insertionSort rowDateLe (appNormalize raw),
    appNormalize_map_rawOf raw⟩

/-- A raw backend dataset with one unparseable timestamp. -/
def exBrawBad : List BRawRow := [⟨1, none, "A", 10⟩]

/-- Counterexample to claim C5 as stated: the backend load
(`back-end/app.py` line 8, `pd.to_datetime` with default `errors="raise"`)
fails on a dataset containing an unparseable timestamp instead of dropping
the row. -/
theorem backendParseDates_raises :
    backendParseDates exBrawBad = Except.error "unparseable order_date" :=
  rfl

/-- Claim C5 amended: the streamlit normalizations silently exclude exactly
the rows with unparseable timestamps, keep all parseable rows in order and
never error; the backend variant instead fails whenever any timestamp is
unparseable (and only then). -/
theorem unparseable_timestamp_policy (raw : List RawRow)
    (braw : List BRawRow) :
    (appNormalize raw).map rawOf
        = raw.filter (fun r => r.purchase_date.isSome) ∧
      (backendParseDates braw = Except.error "unparseable order_date" ↔
        braw.all (fun r => r.order_date.isSome) = false) := by
  refine ⟨appNormalize_map_rawOf raw, ?_⟩
  unfold backendParseDates
  by_cases hall : braw.all (fun r => r.order_date.isSome) = true
  · simp [hall]
  · simp [hall]

/-- `app/streamlit_app.py` line 97 (`scripts` variant analogous up to
display order): `groupby("product_category")["total_purchase_amount"].sum()`
over the filtered view. -/
def rev_cat (v : List Row) : List (String × ℚ) :=
  ((v.map Row.product_category).toFinset.sort (· ≤ ·)).map
    (fun c => (c, ((v.filter (fun r => decide (r.product_category = c))).map
      Row.total_purchase_amount).sum))

/-- Summing a column fiberwise over any finite set covering the keys of the
list gives the plain column sum. -/
theorem sum_fiberwise {α K : Type} [DecidableEq K] (l : List α) (key : α → K)
    (val : α → ℚ) (s : Finset K) (h : ∀ a ∈ l, key a ∈ s) :
    (∑ k ∈ s, ((l.filter (fun a => decide (key a = k))).map val).sum)
      = (l.map val).sum := by
  induction l with
  | nil => simp
  | cons a t ih =>
    have ha : key a ∈ s := h a (List.mem_cons_self a t)
    have ht : ∀ x ∈ t, key x ∈ s := fun x hx => h x (List.mem_cons_of_mem a hx)
    have step : ∀ k ∈ s,
        ((List.filter (fun x => decide (key x = k)) (a :: t)).map val).sum
          = (if key a = k then val a else 0)
            + ((List.filter (fun x => decide (key x = k)) t).map val).sum := by
      intro k _
      by_cases hk : key a = k
      · simp [List.filter_cons, hk]
      · simp [List.filter_cons, hk]
    rw [Finset.sum_congr rfl step, Finset.sum_add_distrib, ih ht,
      Finset.sum_ite_eq s (key a) (fun _ => val a), if_pos ha]
    simp

/-- Summing a function over the sorted list of a finite set is summing it
over the set. -/
theorem sort_map_sum {K : Type} [LinearOrder K] (s : Finset K) (f : K → ℚ) :
    ((s.sort (· ≤ ·)).map f).sum = ∑ k ∈ s, f k := by
  have hperm : List.Perm (s.sort (· ≤ ·)) s.toList :=
    Finset.sort_perm_toList (· ≤ ·) s
  calc ((s.sort (· ≤ ·)).map f).sum
      = ((s.toList).map f).sum := (hperm.map f).sum_eq
    _ = ∑ k ∈ s, f k := Finset.sum_to_list s f

/-- Claim C7: the values of the revenue-by-category mapping sum exactly to
the total-revenue aggregate of the same (full, unfiltered) dataset — in the
backend (`/api/category_sales` vs `/api/kpis`) and in the dashboards'
`rev_cat` vs the `Revenue` KPI. -/
theorem category_sums_match_total (df : List BRow) (v : List Row) :
    ((category_sales df).map Prod.snd).sum = (kpis df).total_revenue ∧
      ((rev_cat v).map Prod.snd).sum = totalRevenue v := by
  constructor
  · have hmem : ∀ r ∈ df,
        r.product_category ∈ (df.map BRow.product_category).toFinset := by
      intro r hr
      simp only [List.mem_toFinset, List.mem_map]
      exact ⟨r, hr, rfl⟩
    calc ((category_sales df).map Prod.snd).sum
        = (((df.map BRow.product_category).toFinset.sort (· ≤ ·)).map
            (fun c => ((df.filter (fun r => decide (r.product_category = c))).map
              BRow.total_price).sum)).sum := by
          simp [category_sales, List.map_map, Function.comp_def]
      _ = ∑ c ∈ (df.map BRow.product_category).toFinset,
            ((df.filter (fun r => decide (r.product_category = c))).map
              BRow.total_price).sum := sort_map_sum _ _
      _ = (df.map BRow.total_price).sum :=
          sum_fiberwise df BRow.product_category BRow.total_price _ hmem
      _ = (kpis df).total_revenue := rfl
  · have hmem : ∀ r ∈ v,
        r.product_category ∈ (v.map Row.product_category).toFinset := by
      intro r hr
      simp only [List.mem_toFinset, List.mem_map]
      exact ⟨r, hr, rfl⟩
    calc ((rev_cat v).map Prod.snd).sum
        = (((v.map Row.product_category).toFinset.sort (· ≤ ·)).map
            (fun c => ((v.filter (fun r => decide (r.product_category = c))).map
              Row.total_purchase_amount).sum)).sum := by
          simp [rev_cat, List.map_map, Function.comp_def]
      _ = ∑ c ∈ (v.map Row.product_category).toFinset,
            ((v.filter (fun r => decide (r.product_category = c))).map
              Row.total_purchase_amount).sum := sort_map_sum _ _
      _ = (v.map Row.total_purchase_amount).sum :=
          sum_fiberwise v Row.product_category Row.total_purchase_amount _ hmem
      _ = totalRevenue v := rfl

/-- A backend dataset in which one order id occurs on two rows. -/
def dupOrderDf : List BRow :=
  [⟨1, ⟨2024, 1, 5⟩, "A", 100⟩, ⟨1, ⟨2024, 1, 6⟩, "A", 100⟩]

/-- Counterexample to claim C6 as stated: the backend's order-count
aggregate is `nunique(order_id)`, not the row count, and on this dataset
the reported average order value (200) times the row count (2) is 400, not
the total revenue 200. -/
theorem avg_times_rowcount_fails :
    (kpis dupOrderDf).avg_order_value = some 200 ∧
      dupOrderDf.length = 2 ∧
      (kpis dupOrderDf).total_revenue = 200 ∧
      (kpis dupOrderDf).total_orders ≠ dupOrderDf.length ∧
      (200 : ℚ) * 2 ≠ 200 := by
  have h1 : total_orders dupOrderDf = 1 := by decide
  have h2 : total_revenue dupOrderDf = 200 := by
    norm_num [total_revenue, dupOrderDf]
  refine ⟨?_, rfl, h2, ?_, by norm_num⟩
  · show (avg_order_value dupOrderDf).map round2 = some 200
    rw [avg_order_value, h1, h2]
    norm_num [round2, roundHalfEven]
  · show total_orders dupOrderDf ≠ dupOrderDf.length
    rw [h1]
    decide

/-- Claim C6 amended: in the streamlit dashboards the average order value is
the mean of the amounts, so average × order count equals total revenue
exactly whenever the order count (= row count) is positive; in the backend
the order-count aggregate is the number of distinct order ids, and the
pre-rounding average times that distinct count equals total revenue. -/
theorem avg_times_count (v : List Row) (bdf : List BRow)
    (h : 0 < orderCount v) (hb : 0 < total_orders bdf) :
    avgOrderValue v = some (totalRevenue v / (orderCount v : ℚ)) ∧
      totalRevenue v / (orderCount v : ℚ) * (orderCount v : ℚ)
        = totalRevenue v ∧
      avg_order_value bdf
        = some (total_revenue bdf / (total_orders bdf : ℚ)) ∧
      total_revenue bdf / (total_orders bdf : ℚ) * (total_orders bdf : ℚ)
        = total_revenue bdf := by
  have hv : v.length ≠ 0 := Nat.pos_iff_ne_zero.mp h
  have hbne : total_orders bdf ≠ 0 := Nat.pos_iff_ne_zero.mp hb
  refine ⟨?_, ?_, ?_, ?_⟩
  · simp [avgOrderValue, seriesMean, List.length_map, hv, totalRevenue,
      orderCount]
  · exact div_mul_cancel₀ _ (Nat.cast_ne_zero.mpr hv)
  · simp [avg_order_value, hbne]
  · exact div_mul_cancel₀ _ (Nat.cast_ne_zero.mpr hbne)

/-- Witness for the amended C6 on one-row datasets: 4/1 × 1 = 4. -/
theorem avg_times_count_witness :
    avgOrderValue
        [{ purchase_date := ⟨2024, 1, 5⟩, product_category := "A",
           payment_method := "Card", quantity := 1,
           total_purchase_amount := 4, returns := 0, churn := 0 }]
      = some ((4 : ℚ) / 1) := by
  have h := avg_times_count
    [{ purchase_date := ⟨2024, 1, 5⟩, product_category := "A",
       payment_method := "Card", quantity := 1,
       total_purchase_amount := 4, returns := 0, churn := 0 }]
    [⟨7, ⟨2024, 1, 5⟩, "A", 4⟩] (by decide) (by decide)
  simpa [totalRevenue, orderCount] using h.1

/-- The set of month ordinals occurring in a view. -/
def monthKeys (v : List Row) : Finset Nat :=
  (v.map (fun r => monthKey r.purchase_date)).toFinset

/-- Revenue of the month bucket `k`: the sum of `total_purchase_amount`
over the rows whose purchase date falls in that calendar month. -/
def monthSum (v : List Row) (k : Nat) : ℚ :=
  ((v.filter (fun r => decide (monthKey r.purchase_date = k))).map
    Row.total_purchase_amount).sum

/-- `scripts/streamlit_dashboard.py` lines 190–196:
`groupby(purchase_date.dt.to_period("M"))["total_purchase_amount"].sum()` —
only the months actually present, in ascending order, each with its bucket
sum. -/
def monthly_revenue (v : List Row) : List (Nat × ℚ) :=
  ((monthKeys v).sort (· ≤ ·)).map (fun k => (k, monthSum v k))

/-- `app/streamlit_app.py` line 138:
`set_index("purchase_date").resample("M")["total_purchase_amount"].sum()` —
EVERY month from the first to the last present in the view, in order;
months with no rows get the empty-group sum 0. -/
def monthly (v : List Row) : List (Nat × ℚ) :=
  if h : (monthKeys v).Nonempty then
    (List.range ((monthKeys v).max' h - (monthKeys v).min' h + 1)).map
      (fun i => ((monthKeys v).min' h + i,
        monthSum v ((monthKeys v).min' h + i)))
  else []

theorem mem_monthKeys {v : List Row} {k : Nat} :
    k ∈ monthKeys v ↔ ∃ r, r ∈ v ∧ monthKey r.purchase_date = k := by
  simp [monthKeys, List.mem_toFinset, List.mem_map]

theorem monthly_eq_pos (v : List Row) (h : (monthKeys v).Nonempty) :
    monthly v
      = (List.range ((monthKeys v).max' h - (monthKeys v).min' h + 1)).map
          (fun i => ((monthKeys v).min' h + i,
            monthSum v ((monthKeys v).min' h + i))) := by
  rw [monthly, dif_pos h]

theorem monthly_eq_neg (v : List Row) (h : ¬ (monthKeys v).Nonempty) :
    monthly v = [] := by
  rw [monthly, dif_neg h]

theorem monthKeys_empty_iff {v : List Row} :
    ¬ (monthKeys v).Nonempty → v = [] := by
  intro h
  cases v with
  | nil => rfl
  | cons a t =>
      exact absurd ⟨monthKey a.purchase_date,
        mem_monthKeys.mpr ⟨a, List.mem_cons_self a t, rfl⟩⟩ h

theorem range_map_sum (n : Nat) (g : Nat → ℚ) :
    ((List.range n).map g).sum = ∑ i ∈ Finset.range n, g i := by
  induction n with
  | zero => simp
  | succ m ih =>
      rw [List.range_succ, List.map_append, List.sum_append,
        Finset.sum_range_succ, ih]
      simp

theorem monthly_sum_eq (v : List Row) :
    ((monthly v).map Prod.snd).sum = totalRevenue v := by
  by_cases h : (monthKeys v).Nonempty
  · have hcover : ∀ r ∈ v, monthKey r.purchase_date ∈
        (Finset.range ((monthKeys v).max' h - (monthKeys v).min' h + 1)).image
          (fun i => (monthKeys v).min' h + i) := by
      intro r hr
      have hk : monthKey r.purchase_date ∈ monthKeys v :=
        mem_monthKeys.mpr ⟨r, hr, rfl⟩
      have h1 : (monthKeys v).min' h ≤ monthKey r.purchase_date :=
        Finset.min'_le _ _ hk
      have h2 : monthKey r.purchase_date ≤ (monthKeys v).max' h :=
        Finset.le_max' _ _ hk
      refine Finset.mem_image.mpr
        ⟨monthKey r.purchase_date - (monthKeys v).min' h,
          Finset.mem_range.mpr (by omega), by omega⟩
    have hinj : ∀ x ∈ Finset.range ((monthKeys v).max' h
          - (monthKeys v).min' h + 1),
        ∀ y ∈ Finset.range ((monthKeys v).max' h - (monthKeys v).min' h + 1),
        (monthKeys v).min' h + x = (monthKeys v).min' h + y → x = y := by
      intro x _ y _ hxy
      omega
    calc ((monthly v).map Prod.snd).sum
        = ((List.range ((monthKeys v).max' h - (monthKeys v).min' h + 1)).map
            (fun i => monthSum v ((monthKeys v).min' h + i))).sum := by
          rw [monthly_eq_pos v h]
          simp [List.map_map, Function.comp_def]
      _ = ∑ i ∈ Finset.range ((monthKeys v).max' h - (monthKeys v).min' h + 1),
            monthSum v ((monthKeys v).min' h + i) := range_map_sum _ _
      _ = ∑ k ∈ (Finset.range ((monthKeys v).max' h
              - (monthKeys v).min' h + 1)).image
            (fun i => (monthKeys v).min' h + i), monthSum v k :=
          (Finset.sum_image hinj).symm
      _ = (v.map Row.total_purchase_amount).sum :=
          sum_fiberwise v (fun r => monthKey r.purchase_date)
            Row.total_purchase_amount _ hcover
      _ = totalRevenue v := rfl
  · rw [monthly_eq_neg v h, monthKeys_empty_iff h]
    rfl

theorem monthly_revenue_sum_eq (v : List Row) :
    ((monthly_revenue v).map Prod.snd).sum = totalRevenue v := by
  have hcover : ∀ r ∈ v, monthKey r.purchase_date ∈ monthKeys v :=
    fun r hr => mem_monthKeys.mpr ⟨r, hr, rfl⟩
  calc ((monthly_revenue v).map Prod.snd).sum
      = (((monthKeys v).sort (· ≤ ·)).map (fun k => monthSum v k)).sum := by
        simp [monthly_revenue, List.map_map, Function.comp_def]
    _ = ∑ k ∈ monthKeys v, monthSum v k := sort_map_sum _ _
    _ = (v.map Row.total_purchase_amount).sum :=
        sum_fiberwise v (fun r => monthKey r.purchase_date)
          Row.total_purchase_amount _ hcover
    _ = totalRevenue v := rfl

theorem monthly_revenue_keys_eq (v : List Row) :
    (monthly_revenue v).map Prod.fst = (monthKeys v).sort (· ≤ ·) := by
  simp [monthly_revenue, List.map_map, Function.comp_def]

theorem monthly_keys_sorted (v : List Row) :
    ((monthly v).map Prod.fst).Sorted (· < ·) := by
  by_cases h : (monthKeys v).Nonempty
  · rw [monthly_eq_pos v h]
    have : ((List.range ((monthKeys v).max' h - (monthKeys v).min' h + 1)).map
        (fun i => ((monthKeys v).min' h + i,
          monthSum v ((monthKeys v).min' h + i)))).map Prod.fst
        = (List.range ((monthKeys v).max' h - (monthKeys v).min' h + 1)).map
            (fun i => (monthKeys v).min' h + i) := by
      simp [List.map_map, Function.comp_def]
    rw [this]
    exact List.Pairwise.map _ (fun a b hab => by omega)
      (List.pairwise_lt_range _)
  · rw [monthly_eq_neg v h]
    exact List.sorted_nil

theorem monthly_mem_keys (v : List Row) (k : Nat) :
    k ∈ (monthly v).map Prod.fst ↔
      ((∃ r, r ∈ v ∧ monthKey r.purchase_date ≤ k) ∧
        (∃ r, r ∈ v ∧ k ≤ monthKey r.purchase_date)) := by
  by_cases h : (monthKeys v).Nonempty
  · obtain ⟨rmin, hrmin, hkmin⟩ := mem_monthKeys.mp ((monthKeys v).min'_mem h)
    obtain ⟨rmax, hrmax, hkmax⟩ := mem_monthKeys.mp ((monthKeys v).max'_mem h)
    have hmm : (monthKeys v).min' h ≤ (monthKeys v).max' h :=
      Finset.min'_le _ _ ((monthKeys v).max'_mem h)
    rw [monthly_eq_pos v h]
    simp only [List.map_map, Function.comp_def, List.mem_map, List.mem_range]
    constructor
    · rintro ⟨i, hi, rfl⟩
      exact ⟨⟨rmin, hrmin, by omega⟩, ⟨rmax, hrmax, by omega⟩⟩
    · rintro ⟨⟨r1, hr1, hle1⟩, ⟨r2, hr2, hle2⟩⟩
      have ha : (monthKeys v).min' h ≤ monthKey r1.purchase_date :=
        Finset.min'_le _ _ (mem_monthKeys.mpr ⟨r1, hr1, rfl⟩)
      have hb : monthKey r2.purchase_date ≤ (monthKeys v).max' h :=
        Finset.le_max' _ _ (mem_monthKeys.mpr ⟨r2, hr2, rfl⟩)
      exact ⟨k - (monthKeys v).min' h, by omega, by omega⟩
  · rw [monthly_eq_neg v h, monthKeys_empty_iff h]
    simp

/-- Claim C3 amended: both monthly series bucket rows by calendar month of
the purchase timestamp, give each bucket its sum, and emit buckets in
strictly increasing month order, and the bucket values always sum to the
view's total revenue; but only the `groupby(to_period("M"))` variant
(`scripts/streamlit_dashboard.py`) omits months with no rows — its keys are
exactly the months present — while the `resample("M")` variant
(`app/streamlit_app.py`) emits every month between the first and the last
present, including empty months as zero-valued entries. -/
theorem monthly_series_spec (v : List Row) :
    ((monthly_revenue v).map Prod.fst).Sorted (· < ·) ∧
      ((monthly v).map Prod.fst).Sorted (· < ·) ∧
      ((monthly_revenue v).map Prod.snd).sum = totalRevenue v ∧
      ((monthly v).map Prod.snd).sum = totalRevenue v ∧
      (∀ k : Nat, k ∈ (monthly_revenue v).map Prod.fst ↔
        ∃ r, r ∈ v ∧ monthKey r.purchase_date = k) ∧
      (∀ k : Nat, k ∈ (monthly v).map Prod.fst ↔
        ((∃ r, r ∈ v ∧ monthKey r.purchase_date ≤ k) ∧
          (∃ r, r ∈ v ∧ k ≤ monthKey r.purchase_date))) ∧
      (∀ p ∈ monthly_revenue v, p.2 = monthSum v p.1) ∧
      (∀ p ∈ monthly v, p.2 = monthSum v p.1) := by
  refine ⟨?_, monthly_keys_sorted v, monthly_revenue_sum_eq v,
    monthly_sum_eq v, ?_, monthly_mem_keys v, ?_, ?_⟩
  · rw [monthly_revenue_keys_eq]
    exact Finset.sort_sorted_lt _
  · intro k
    rw [monthly_revenue_keys_eq, Finset.mem_sort]
    exact mem_monthKeys
  · intro p hp
    unfold monthly_revenue at hp
    obtain ⟨k, hk, rfl⟩ := List.mem_map.mp hp
    rfl
  · intro p hp
    by_cases h : (monthKeys v).Nonempty
    · rw [monthly_eq_pos v h] at hp
      obtain ⟨i, hi, rfl⟩ := List.mem_map.mp hp
      rfl
    · rw [monthly_eq_neg v h] at hp
      exact absurd hp (List.not_mem_nil p)

/-- A January order. -/
def exRowJan : Row :=
  { purchase_date := ⟨2024, 1, 5⟩, product_category := "A",
    payment_method := "Card", quantity := 1, total_purchase_amount := 100,
    returns := 0, churn := 0 }

/-- A March order of the same year — February is empty. -/
def exRowMar : Row :=
  { purchase_date := ⟨2024, 3, 10⟩, product_category := "B",
    payment_method := "Cash", quantity := 1, total_purchase_amount := 50,
    returns := 0, churn := 0 }

/-- A view with orders in 2024-01 and 2024-03 and none in 2024-02. -/
def exMonthsRows : List Row := [exRowJan, exRowMar]

/-- Counterexample to claim C3 as stated: the `resample("M")` series of
`app/streamlit_app.py` contains the bucket of month 2024-02
(ordinal 24289) even though no row of the view falls in that month — empty
months between the first and last are NOT omitted by this variant. -/
theorem resample_includes_zero_month :
    (24289 : Nat) ∈ (monthly exMonthsRows).map Prod.fst ∧
      exMonthsRows.all
        (fun r => decide (monthKey r.purchase_date ≠ 24289)) = true := by
  constructor
  · rw [monthly_mem_keys]
    exact ⟨⟨exRowJan, List.mem_cons_self _ _, by decide⟩,
      ⟨exRowMar, List.mem_cons_of_mem _ (List.mem_cons_self _ _), by decide⟩⟩
  · decide

/-- Witness for the amended C3: month 2024-01 (ordinal 24288) appears in the
groupby series of the two-month example because a row falls in it. -/
theorem monthly_series_spec_witness :
    (24288 : Nat) ∈ (monthly_revenue exMonthsRows).map Prod.fst :=
  ((monthly_series_spec exMonthsRows).2.2.2.2.1 24288).mpr
    ⟨exRowJan, List.mem_cons_self _ _, by decide⟩
